import Mathlib

/-
  Verification of the account subsystem of `backend/app/users/router.py`
  (register / login / read / update / delete), shallowly embedded in Lean.

  The router module is embedded directly from the source.  The modules
  `backend/app/users/model.py` (EnUser / EnUserDB / EnUserUpdate and their
  methods) and `backend/app/constants.py` (token secret, decode_token) are
  not part of the provided sources; the definitions that stand in for them
  are modelled from the specification and carry a doc comment saying so.
-/

set_option autoImplicit false

namespace UsersRouter

/-- Error taxonomy of the service, as surfaced through HTTP status codes:
`notFound` is 404, `unauthorized` is 401 (bad password), `conflict` is 409,
`unauthenticated` is 401 (missing or invalid token), and `internalError`
models an unhandled Python exception escaping the handler (a 500-class
response). -/
inductive AppError where
  | notFound (detail : String)
  | unauthorized (detail : String)
  | conflict (detail : String)
  | unauthenticated (detail : String)
  | internalError (detail : String)
deriving DecidableEq, Repr

/-- Modelled from the spec: TokenClaims is the minimal identity projection
embedded in a token, "at least `id` and `username`; no password material".
`id` is an `Option` because the claim set of a token encoded from a request
model (which has no store-assigned id) lacks the `id` entry; the router's
delete handler explicitly branches on `"id" in token_data`. -/
structure TokenClaims where
  id : Option Nat
  username : String
deriving DecidableEq, Repr

/-- Modelled from the spec: a signed compact token binding claims to a
symmetric secret; the signature check is modelled by recording the secret
the token was signed with. -/
structure Token where
  payload : TokenClaims
  secret : String
deriving DecidableEq, Repr

/-- Modelled from the spec: the process-wide signing secret from
`constants.py`, "a single configuration value, loaded once, process-wide". -/
def token_secret : String := "process-wide-signing-secret"

/-- Modelled from the spec: `jwt.encode(claims, secret, algorithm)` produces
a compact signed string binding the claims to the secret. -/
def jwt.encode (claims : TokenClaims) (secret : String) : Token :=
  ⟨claims, secret⟩

/-- Modelled from the spec: `decode_token` from `constants.py` verifies the
signature and returns the claims, failing when the signature is invalid;
"decoding never touches the AccountStore". -/
def decode_token (token : Token) : Except AppError TokenClaims :=
  if token.secret = token_secret then
    .ok token.payload
  else
    .error (.unauthenticated "Invalid token.")

/-- Python's `str.lower()`, written structurally over the character list so
that proofs can evaluate it. -/
def lowerStr (s : String) : String :=
  ⟨s.data.map Char.toLower⟩

/-- Splits a character list at each dollar sign (structural counterpart of
splitting a self-describing hash string into its fields). -/
def splitDollars : List Char → List (List Char)
  | [] => [[]]
  | c :: rest =>
    match splitDollars rest with
    | [] => [[]]
    | g :: gs => if c = '$' then [] :: g :: gs else (c :: g) :: gs

/-- Joins character-list fields back with dollar signs. -/
def joinDollars : List (List Char) → List Char
  | [] => []
  | [g] => g
  | g :: g' :: gs => g ++ '$' :: joinDollars (g' :: gs)

/-- Modelled from the spec: `pbkdf2_sha256.hash` produces an
algorithm-tagged, salted, self-describing one-way hash; the per-call
random salt is made explicit as an argument (nondeterminism passed in by
the caller). -/
def pbkdf2_sha256.hash (salt : Nat) (plaintext : String) : String :=
  "pbkdf2-sha256$" ++ toString salt ++ "$" ++ plaintext

/-- Modelled from the spec: `pbkdf2_sha256.verify` parses the hash's
embedded algorithm tag and salt, recomputes and compares, returning a
plain boolean. -/
def pbkdf2_sha256.verify (plaintext hashValue : String) : Bool :=
  match splitDollars hashValue.data with
  | tag :: _salt :: rest =>
    decide (tag = "pbkdf2-sha256".data) && decide (joinDollars rest = plaintext.data)
  | _ => false

/-- Modelled from the spec: `EnUser`, the request model of
`users/model.py`: username, mail and plaintext password; no store-assigned
id (the id column lives on the table model `EnUserDB`, as in the
`EnComponent` / `EnComponentDB` pair of `components/model.py`). -/
structure EnUser where
  username : String
  mail : String
  password : String
deriving DecidableEq, Repr

/-- The persisted account row (`EnUserDB`), with the columns of the spec's
data model: store-assigned `id`, `username`, `mail`, the `password` column
holding the hash, `date_joined` and nullable `last_login`.  Timestamps are
modelled as naturals. -/
structure EnUserDB where
  id : Option Nat
  username : String
  mail : String
  password : String
  date_joined : Nat
  last_login : Option Nat
deriving DecidableEq, Repr

/-- Modelled from the spec: `get_token_information` on the request model
returns the minimal claims projection; a request model has no
store-assigned id, so the claim set lacks the `id` entry. -/
def EnUser.get_token_information (u : EnUser) : TokenClaims :=
  ⟨none, u.username⟩

/-- Modelled from the spec: `get_token_information` on the table model
returns the minimal claims projection `id` / `username`. -/
def EnUserDB.get_token_information (a : EnUserDB) : TokenClaims :=
  ⟨a.id, a.username⟩

/-- Modelled from the spec: `user_db.verify_password(password)` checks the
plaintext against the stored hash via the password hasher. -/
def EnUserDB.verify_password (a : EnUserDB) (password : String) : Bool :=
  pbkdf2_sha256.verify password a.password

/-- The account table, modelled as the list of its rows. -/
abbrev DB := List EnUserDB

/-- `db.exec(select(EnUserDB).where(EnUserDB.username == u)).first()` —
first row whose username column equals the given string exactly (the
store's equality on strings is exact string equality). -/
def findByUsername (db : DB) (username : String) : Option EnUserDB :=
  db.find? (fun a => decide (a.username = username))

/-- `db.exec(select(EnUserDB).where(EnUserDB.mail == m)).first()`. -/
def findByMail (db : DB) (mail : String) : Option EnUserDB :=
  db.find? (fun a => decide (a.mail = mail))

/-- `db.get(EnUserDB, i)` — primary-key lookup. -/
def getById (db : DB) (i : Nat) : Option EnUserDB :=
  db.find? (fun a => decide (a.id = some i))

/-- The id the store assigns on insert: one more than the largest id in
use. -/
def nextId (db : DB) : Nat :=
  (db.map (fun a => a.id.getD 0)).foldr max 0 + 1

/-- `db.commit()` after mutating a row fetched from the session: the row
equal to the fetched object is replaced by its mutated version. -/
def commitReplace (db : DB) (a a' : EnUserDB) : DB :=
  db.map (fun b => if b = a then a' else b)

/-- `db.delete(row); db.commit()` — removes the row from the table. -/
def deleteRow (db : DB) (a : EnUserDB) : DB :=
  db.filter (fun b => decide (b ≠ a))

/-- The JSON body returned by the auth endpoints: message, the claims
echoed as `user_data`, and the issued token (`token_type` is the constant
"bearer" and is omitted). -/
structure AuthResponse where
  message : String
  user_data : TokenClaims
  access_token : Token
deriving DecidableEq, Repr

/-- The JSON body returned by the delete endpoint: message, the deleted
account's claims projection, and the token that authorized the deletion. -/
structure DeleteResponse where
  message : String
  user_data : TokenClaims
  token : Token
deriving DecidableEq, Repr

/-- Modelled from the spec: the outward account projection produced by
serializing a row through the `EnUser` response model — "the account
projection without the password hash"; per the spec, `passwordHash` "is
never readable or serializable outward". -/
structure AccountOut where
  username : String
  mail : String
  date_joined : Nat
  last_login : Option Nat
deriving DecidableEq, Repr

/-- Serialization of a stored row through the response model. -/
def projectAccount (a : EnUserDB) : AccountOut :=
  ⟨a.username, a.mail, a.date_joined, a.last_login⟩

/-- `user_login` (router.py lines 19-45).  Looks up the first row whose
username column equals the given string, 404s when absent, checks the
password, 401s on mismatch; on success sets `last_login` to now, commits,
and returns the refreshed row's claims with an issued token. -/
def user_login (db : DB) (username password : String) (now : Nat) :
    Except AppError (DB × AuthResponse) :=
  match findByUsername db username with
  | none => .error (.notFound "User not found.")
  | some user_db =>
    if user_db.verify_password password then
      let user_db' := { user_db with last_login := some now }
      let db' := commitReplace db user_db user_db'
      let info := user_db'.get_token_information
      .ok (db', ⟨"User login successful.", info, jwt.encode info token_secret⟩)
    else
      .error (.unauthorized "Password incorrect.")

/-- `user_register` (router.py lines 48-86), with the id the store assigns
on commit passed in explicitly (`assignedId`), so that the handler's
`db_user.id is not None` guard is visible.  Note two features taken
directly from the source: the username pre-check compares the raw request
username (`user.username`, not lowercased) against the stored rows, and
the response's `user_data` and token are built from the request object
`user`, not from the persisted `db_user`. -/
def user_register_core (db : DB) (user : EnUser) (now salt : Nat)
    (assignedId : Option Nat) : Except AppError (DB × AuthResponse) :=
  if (findByUsername db user.username).isSome then
    .error (.conflict "User already exists.")
  else if (findByMail db user.mail).isSome then
    .error (.conflict "Mail already in use.")
  else
    let db_user : EnUserDB :=
      { id := assignedId
        username := lowerStr user.username
        mail := user.mail
        password := pbkdf2_sha256.hash salt user.password
        date_joined := now
        last_login := none }
    let db' := db ++ [db_user]
    if db_user.id.isSome then
      let info := user.get_token_information
      .ok (db', ⟨"User created.", info, jwt.encode info token_secret⟩)
    else
      .error (.notFound "User registration failed.")

/-- `user_register` with the store behaving normally: the committed row
receives the next free id. -/
def user_register (db : DB) (user : EnUser) (now salt : Nat) :
    Except AppError (DB × AuthResponse) :=
  user_register_core db user now salt (some (nextId db))

/-- `user_read` (router.py lines 89-101).  `none` models an absent bearer
token.  A decoded claim set without an `id` entry makes
`token_data["id"]` raise a KeyError (an unhandled 500), modelled as
`internalError`. -/
def user_read (db : DB) (token : Option Token) :
    Except AppError AccountOut :=
  match token with
  | none => .error (.unauthenticated "Not authenticated.")
  | some t =>
    match decode_token t with
    | .error e => .error e
    | .ok token_data =>
      match token_data.id with
      | none => .error (.internalError "KeyError: id")
      | some i =>
        match getById db i with
        | none => .error (.notFound "User not found.")
        | some user => .ok (projectAccount user)

/-- Modelled from the spec: `EnUserUpdate`, the payload of the PATCH
endpoint — a record of optional fields, `none` meaning the field is absent
from the payload; its `model_dict()` yields exactly the fields present,
values verbatim (the spec's design notes call the source's update a
"generic field-copy"). -/
structure EnUserUpdate where
  username : Option String
  mail : Option String
  password : Option String
deriving DecidableEq, Repr

/-- The `setattr` loop of `update_user`: each field present in
`model_dict()` is copied verbatim onto the fetched row. -/
def applyUpdate (a : EnUserDB) (u : EnUserUpdate) : EnUserDB :=
  let a1 := match u.username with | some v => { a with username := v } | none => a
  let a2 := match u.mail with | some v => { a1 with mail := v } | none => a1
  match u.password with | some v => { a2 with password := v } | none => a2

/-- `update_user` (router.py lines 104-120).  The handler's missing-account
check reads `if not user:` — it tests the request payload `user`, which is
a pydantic model and always truthy, instead of the fetched row `user_db`;
when the row is absent the `setattr` loop therefore runs on `None` and
raises an AttributeError (an unhandled 500), modelled as `internalError`,
and a claim set without an `id` entry raises a KeyError as in read. -/
def update_user (db : DB) (token : Token) (user : EnUserUpdate) :
    Except AppError (DB × AccountOut) :=
  match decode_token token with
  | .error e => .error e
  | .ok token_data =>
    match token_data.id with
    | none => .error (.internalError "KeyError: id")
    | some i =>
      match getById db i with
      | none => .error (.internalError "AttributeError: NoneType used as a row")
      | some user_db =>
        let user_db' := applyUpdate user_db user
        .ok (commitReplace db user_db user_db', projectAccount user_db')

/-- `delete_user` (router.py lines 123-147).  When the claim set lacks an
`id`, the row is resolved by the claim username and deleted, and the
response echoes the deleted row's claims with the presented token.  When
the claim set has an `id`, the source calls `db.get(EnUser, ...)` — with
the request model `EnUser`, which is not a mapped table class — so the
session raises (an unhandled 500), modelled as `internalError`. -/
def delete_user (db : DB) (token : Token) :
    Except AppError (DB × DeleteResponse) :=
  match decode_token token with
  | .error e => .error e
  | .ok token_data =>
    match token_data.id with
    | none =>
      match findByUsername db token_data.username with
      | none => .error (.notFound "User not found.")
      | some user =>
        .ok (deleteRow db user,
             ⟨"User was successfully deleted.", user.get_token_information, token⟩)
    | some _ =>
      .error (.internalError "ArgumentError: EnUser is not a mapped table")

/-- The update loop never touches the id column. -/
theorem applyUpdate_id (a : EnUserDB) (u : EnUserUpdate) :
    (applyUpdate a u).id = a.id := by
  obtain ⟨un, ml, pw⟩ := u
  cases un <;> cases ml <;> cases pw <;> rfl

/-- The update loop never touches the date_joined column. -/
theorem applyUpdate_date_joined (a : EnUserDB) (u : EnUserUpdate) :
    (applyUpdate a u).date_joined = a.date_joined := by
  obtain ⟨un, ml, pw⟩ := u
  cases un <;> cases ml <;> cases pw <;> rfl

/-- The update loop never touches the last_login column. -/
theorem applyUpdate_last_login (a : EnUserDB) (u : EnUserUpdate) :
    (applyUpdate a u).last_login = a.last_login := by
  obtain ⟨un, ml, pw⟩ := u
  cases un <;> cases ml <;> cases pw <;> rfl

/-- A username absent from the payload is left unchanged. -/
theorem applyUpdate_username (a : EnUserDB) (u : EnUserUpdate)
    (h : u.username = none) : (applyUpdate a u).username = a.username := by
  obtain ⟨un, ml, pw⟩ := u
  subst h
  cases ml <;> cases pw <;> rfl

/-- A mail absent from the payload is left unchanged. -/
theorem applyUpdate_mail (a : EnUserDB) (u : EnUserUpdate)
    (h : u.mail = none) : (applyUpdate a u).mail = a.mail := by
  obtain ⟨un, ml, pw⟩ := u
  subst h
  cases un <;> cases pw <;> rfl

/-- A password absent from the payload is left unchanged. -/
theorem applyUpdate_password (a : EnUserDB) (u : EnUserUpdate)
    (h : u.password = none) : (applyUpdate a u).password = a.password := by
  obtain ⟨un, ml, pw⟩ := u
  subst h
  cases un <;> cases ml <;> rfl

/-- Committing a mutated row keeps it reachable under its primary key, as
long as the mutation does not change the id column. -/
theorem getById_commitReplace (db : DB) (i : Nat) (a a' : EnUserDB)
    (hid : a'.id = a.id) (h : getById db i = some a) :
    getById (commitReplace db a a') i = some a' := by
  induction db with
  | nil => simp [getById] at h
  | cons b db ih =>
    simp only [getById, List.find?] at h
    by_cases hb : b.id = some i
    · simp [hb] at h
      subst h
      simp [commitReplace, getById, List.find?, hid, hb]
    · simp [hb] at h
      have hpa : a.id = some i := by
        have := List.find?_some h
        simpa using this
      have hba : b ≠ a := fun e => hb (e ▸ hpa)
      simp only [commitReplace, List.map_cons, getById, List.find?]
      simp [hba, hb]
      simpa [getById, commitReplace] using ih h

/-- The modelled hash is algorithm-tagged, hence strictly longer than the
plaintext it was derived from; a hash output is never the raw plaintext. -/
theorem pbkdf2_hash_ne_plaintext (salt : Nat) (pw : String) :
    pbkdf2_sha256.hash salt pw ≠ pw := by
  intro h
  have hl := congrArg String.length h
  have e1 : ("pbkdf2-sha256$" : String).length = 14 := rfl
  have e2 : ("$" : String).length = 1 := rfl
  simp only [pbkdf2_sha256.hash, String.length_append, e1, e2] at hl
  omega

/-- C1: the claim says the token returned by register decodes to the
`id`/`username` of the stored Account.  It fails on the code: the handler
encodes the token and `user_data` from the request object `user`, not from
the persisted `db_user`, so for the registration of "Bob" the stored row
has id 1 and lowercased username "bob" while the token's claims carry no
id and the raw username "Bob". -/
theorem register_token_from_request_not_stored_account :
    user_register [] ⟨"Bob", "b@x.com", "pw"⟩ 0 7 =
      .ok ([⟨some 1, "bob", "b@x.com", "pbkdf2-sha256$7$pw", 0, none⟩],
           ⟨"User created.", ⟨none, "Bob"⟩, ⟨⟨none, "Bob"⟩, token_secret⟩⟩) ∧
    decode_token ⟨⟨none, "Bob"⟩, token_secret⟩ = .ok ⟨none, "Bob"⟩ ∧
    (⟨none, "Bob"⟩ : TokenClaims) ≠
      EnUserDB.get_token_information
        ⟨some 1, "bob", "b@x.com", "pbkdf2-sha256$7$pw", 0, none⟩ :=
  ⟨rfl, rfl, by decide⟩

/-- C2: the claim says a second registration under the same username in
another casing fails with Conflict and creates no second account.  It
fails on the code: the pre-check compares the raw request username against
the stored rows, so after "bob" is stored, registering "BOB" passes the
check, succeeds, and commits a second row that the lowercasing at insert
also stores under username "bob" — two accounts with the same username. -/
theorem register_other_casing_creates_duplicate :
    user_register [⟨some 1, "bob", "b@x.com", "pbkdf2-sha256$7$pw", 0, none⟩]
        ⟨"BOB", "other@x.com", "pw2"⟩ 1 8 =
      .ok ([⟨some 1, "bob", "b@x.com", "pbkdf2-sha256$7$pw", 0, none⟩,
            ⟨some 2, "bob", "other@x.com", "pbkdf2-sha256$8$pw2", 1, none⟩],
           ⟨"User created.", ⟨none, "BOB"⟩, ⟨⟨none, "BOB"⟩, token_secret⟩⟩) ∧
    ([⟨some 1, "bob", "b@x.com", "pbkdf2-sha256$7$pw", 0, none⟩,
      ⟨some 2, "bob", "other@x.com", "pbkdf2-sha256$8$pw2", 1, none⟩] : DB).countP
        (fun a => decide (a.username = "bob")) = 2 :=
  ⟨rfl, rfl⟩

/-- C3: for every valid token whose claim id matches an existing account,
read returns the projection through the response model, which carries no
password column; the stored hash cannot appear in the response, as the
projection is invariant under any change of the stored password. -/
theorem read_returns_projection_without_hash
    (db : DB) (t : Token) (claims : TokenClaims) (i : Nat) (a : EnUserDB)
    (hdec : decode_token t = .ok claims) (hid : claims.id = some i)
    (hget : getById db i = some a) :
    user_read db (some t) = .ok (projectAccount a) ∧
    ∀ p, projectAccount { a with password := p } = projectAccount a := by
  refine ⟨?_, fun p => rfl⟩
  simp [user_read, hdec, hid, hget]

/-- C3 witness: a concrete store and token instantiating the theorem. -/
theorem read_returns_projection_without_hash_witness :
    user_read [⟨some 1, "bob", "b@x.com", "pbkdf2-sha256$7$pw", 0, none⟩]
        (some ⟨⟨some 1, "bob"⟩, token_secret⟩) =
      .ok (projectAccount ⟨some 1, "bob", "b@x.com", "pbkdf2-sha256$7$pw", 0, none⟩) ∧
    ∀ p, projectAccount
        { (⟨some 1, "bob", "b@x.com", "pbkdf2-sha256$7$pw", 0, none⟩ : EnUserDB)
          with password := p } =
      projectAccount ⟨some 1, "bob", "b@x.com", "pbkdf2-sha256$7$pw", 0, none⟩ :=
  read_returns_projection_without_hash
    [⟨some 1, "bob", "b@x.com", "pbkdf2-sha256$7$pw", 0, none⟩]
    ⟨⟨some 1, "bob"⟩, token_secret⟩ ⟨some 1, "bob"⟩ 1
    ⟨some 1, "bob", "b@x.com", "pbkdf2-sha256$7$pw", 0, none⟩ rfl rfl rfl

/-- C4: the claim says a password among the updated fields is persisted as
the PasswordHasher output, never the raw plaintext.  It fails on the code:
the setattr loop copies every payload value verbatim, so updating the
password stores the plaintext "newpw" itself — which no hasher output ever
equals. -/
theorem update_persists_raw_plaintext_password :
    update_user [⟨some 1, "bob", "b@x.com", "pbkdf2-sha256$7$pw", 0, none⟩]
        ⟨⟨some 1, "bob"⟩, token_secret⟩ ⟨none, none, some "newpw"⟩ =
      .ok ([⟨some 1, "bob", "b@x.com", "newpw", 0, none⟩],
           projectAccount ⟨some 1, "bob", "b@x.com", "newpw", 0, none⟩) ∧
    ∀ salt, pbkdf2_sha256.hash salt "newpw" ≠ "newpw" :=
  ⟨rfl, fun salt => pbkdf2_hash_ne_plaintext salt "newpw"⟩

/-- C5: an update with a valid token on an existing account changes only
the fields present in the payload: the updated row is the stored one with
exactly the supplied fields replaced; id, date_joined and last_login are
untouched, and username, mail and password keep their stored values
whenever they are absent from the payload. -/
theorem update_touches_only_supplied_fields
    (db : DB) (t : Token) (claims : TokenClaims) (i : Nat) (a : EnUserDB)
    (u : EnUserUpdate)
    (hdec : decode_token t = .ok claims) (hid : claims.id = some i)
    (hget : getById db i = some a) :
    ∃ db' a', update_user db t u = .ok (db', projectAccount a') ∧
      getById db' i = some a' ∧
      a'.id = a.id ∧
      a'.date_joined = a.date_joined ∧
      a'.last_login = a.last_login ∧
      (u.username = none → a'.username = a.username) ∧
      (u.mail = none → a'.mail = a.mail) ∧
      (u.password = none → a'.password = a.password) := by
  refine ⟨commitReplace db a (applyUpdate a u), applyUpdate a u,
    ?_, ?_, applyUpdate_id a u, applyUpdate_date_joined a u,
    applyUpdate_last_login a u, applyUpdate_username a u,
    applyUpdate_mail a u, applyUpdate_password a u⟩
  · simp [update_user, hdec, hid, hget]
  · exact getById_commitReplace db i a (applyUpdate a u) (applyUpdate_id a u) hget

/-- C5 witness: a concrete store, token and mail-only payload
instantiating the theorem. -/
theorem update_touches_only_supplied_fields_witness :
    ∃ db' a',
      update_user [⟨some 1, "bob", "b@x.com", "pbkdf2-sha256$7$pw", 0, none⟩]
          ⟨⟨some 1, "bob"⟩, token_secret⟩ ⟨none, some "b2@x.com", none⟩ =
        .ok (db', projectAccount a') ∧
      getById db' 1 = some a' ∧
      a'.id = some 1 ∧
      a'.date_joined = 0 ∧
      a'.last_login = none ∧
      ((⟨none, some "b2@x.com", none⟩ : EnUserUpdate).username = none →
        a'.username = "bob") ∧
      ((⟨none, some "b2@x.com", none⟩ : EnUserUpdate).mail = none →
        a'.mail = "b@x.com") ∧
      ((⟨none, some "b2@x.com", none⟩ : EnUserUpdate).password = none →
        a'.password = "pbkdf2-sha256$7$pw") :=
  update_touches_only_supplied_fields
    [⟨some 1, "bob", "b@x.com", "pbkdf2-sha256$7$pw", 0, none⟩]
    ⟨⟨some 1, "bob"⟩, token_secret⟩ ⟨some 1, "bob"⟩ 1
    ⟨some 1, "bob", "b@x.com", "pbkdf2-sha256$7$pw", 0, none⟩
    ⟨none, some "b2@x.com", none⟩ rfl rfl rfl

/-- C6: the claim says an update whose valid token names a missing account
fails with NotFound.  It fails on the code: the handler's check reads
`if not user:`, testing the always-truthy request payload instead of the
fetched row, so the setattr loop runs on None and raises — a 500-class
error, not NotFound. -/
theorem update_missing_account_raises_not_notfound :
    update_user [] ⟨⟨some 1, "bob"⟩, token_secret⟩ ⟨some "bob2", none, none⟩ =
      .error (.internalError "AttributeError: NoneType used as a row") ∧
    ∀ d, update_user [] ⟨⟨some 1, "bob"⟩, token_secret⟩ ⟨some "bob2", none, none⟩ ≠
      .error (.notFound d) := by
  refine ⟨rfl, fun d h => ?_⟩
  rw [show update_user [] ⟨⟨some 1, "bob"⟩, token_secret⟩ ⟨some "bob2", none, none⟩ =
        .error (.internalError "AttributeError: NoneType used as a row") from rfl] at h
  injection h with h2
  exact AppError.noConfusion h2

/-- C7: the claim says delete resolves by claim id when present and by
claim username otherwise, deleting and echoing on success.  The username
path behaves as claimed, but the id path fails on the code: the handler
calls `db.get(EnUser, ...)` with the non-table request model, so every
delete presented with an id-carrying token raises instead of deleting. -/
theorem delete_by_id_claim_raises :
    delete_user [⟨some 1, "bob", "b@x.com", "pbkdf2-sha256$7$pw", 0, none⟩]
        ⟨⟨some 1, "bob"⟩, token_secret⟩ =
      .error (.internalError "ArgumentError: EnUser is not a mapped table") ∧
    delete_user [⟨some 1, "bob", "b@x.com", "pbkdf2-sha256$7$pw", 0, none⟩]
        ⟨⟨none, "bob"⟩, token_secret⟩ =
      .ok ([], ⟨"User was successfully deleted.", ⟨some 1, "bob"⟩,
                ⟨⟨none, "bob"⟩, token_secret⟩⟩) :=
  ⟨rfl, rfl⟩

/-- C8 counterexample: the claim's case-insensitive lookup fails on the
code.  With the account stored under "alice", a login as "Alice" — which
matches case-insensitively and presents the correct password — is rejected
with NotFound, because the handler compares the raw username exactly. -/
theorem login_case_blind_lookup_refuted :
    "Alice".data.map Char.toLower = "alice".data ∧
    pbkdf2_sha256.verify "pw" "pbkdf2-sha256$7$pw" = true ∧
    user_login [⟨some 1, "alice", "a@x.com", "pbkdf2-sha256$7$pw", 0, none⟩]
        "Alice" "pw" 5 =
      .error (.notFound "User not found.") :=
  ⟨by decide, rfl, rfl⟩

/-- C8 (amended): login looks the account up by exact string equality on
the stored username (stored usernames are lowercased at registration), not
case-insensitively; absent such a row it fails with NotFound, with a row
but failing verification it fails with Unauthorized, and otherwise it sets
last_login to now, persists the row, and returns the updated claims with
an issued token. -/
theorem user_login_exact_match_spec (db : DB) (username password : String)
    (now : Nat) :
    (findByUsername db username = none →
      user_login db username password now = .error (.notFound "User not found.")) ∧
    (∀ a, findByUsername db username = some a →
      a.verify_password password = false →
      user_login db username password now =
        .error (.unauthorized "Password incorrect.")) ∧
    (∀ a, findByUsername db username = some a →
      a.verify_password password = true →
      user_login db username password now =
        .ok (commitReplace db a { a with last_login := some now },
             ⟨"User login successful.",
              EnUserDB.get_token_information { a with last_login := some now },
              jwt.encode
                (EnUserDB.get_token_information { a with last_login := some now })
                token_secret⟩)) := by
  refine ⟨fun h => ?_, fun a ha hv => ?_, fun a ha hv => ?_⟩
  · simp [user_login, h]
  · simp [user_login, ha, hv]
  · simp [user_login, ha, hv]

/-- C8 witness: the three branches of the amended login contract exercised
on a concrete store. -/
theorem user_login_exact_match_spec_witness :
    user_login [⟨some 1, "alice", "a@x.com", "pbkdf2-sha256$7$pw", 0, none⟩]
        "alice" "pw" 5 =
      .ok ([⟨some 1, "alice", "a@x.com", "pbkdf2-sha256$7$pw", 0, some 5⟩],
           ⟨"User login successful.", ⟨some 1, "alice"⟩,
            ⟨⟨some 1, "alice"⟩, token_secret⟩⟩) ∧
    user_login [⟨some 1, "alice", "a@x.com", "pbkdf2-sha256$7$pw", 0, none⟩]
        "carol" "pw" 5 =
      .error (.notFound "User not found.") ∧
    user_login [⟨some 1, "alice", "a@x.com", "pbkdf2-sha256$7$pw", 0, none⟩]
        "alice" "wrong" 5 =
      .error (.unauthorized "Password incorrect.") :=
  ⟨(user_login_exact_match_spec
      [⟨some 1, "alice", "a@x.com", "pbkdf2-sha256$7$pw", 0, none⟩]
      "alice" "pw" 5).2.2 _ rfl rfl,
   (user_login_exact_match_spec
      [⟨some 1, "alice", "a@x.com", "pbkdf2-sha256$7$pw", 0, none⟩]
      "carol" "pw" 5).1 rfl,
   (user_login_exact_match_spec
      [⟨some 1, "alice", "a@x.com", "pbkdf2-sha256$7$pw", 0, none⟩]
      "alice" "wrong" 5).2.1 _ rfl rfl⟩

/-- C9: the claim says that after an account is deleted, both read and
update with a previously issued token yield NotFound while the token still
decodes.  The delete and the read behave as claimed, and the token still
decodes, but update fails on the code: with the account gone it raises a
500-class error instead of returning NotFound. -/
theorem stale_token_after_delete :
    delete_user [⟨some 1, "bob", "b@x.com", "pbkdf2-sha256$7$pw", 0, none⟩]
        ⟨⟨none, "bob"⟩, token_secret⟩ =
      .ok ([], ⟨"User was successfully deleted.", ⟨some 1, "bob"⟩,
                ⟨⟨none, "bob"⟩, token_secret⟩⟩) ∧
    decode_token ⟨⟨some 1, "bob"⟩, token_secret⟩ = .ok ⟨some 1, "bob"⟩ ∧
    user_read [] (some ⟨⟨some 1, "bob"⟩, token_secret⟩) =
      .error (.notFound "User not found.") ∧
    update_user [] ⟨⟨some 1, "bob"⟩, token_secret⟩ ⟨none, some "b2@x.com", none⟩ =
      .error (.internalError "AttributeError: NoneType used as a row") :=
  ⟨rfl, rfl, rfl, rfl⟩

/-- C10: when the commit leaves the inserted row's id unset, register
fails with the 404-class "User registration failed." error, and a token is
returned only when the row received an id. -/
theorem register_fails_without_assigned_id
    (db : DB) (user : EnUser) (now salt : Nat)
    (hu : findByUsername db user.username = none)
    (hm : findByMail db user.mail = none) :
    user_register_core db user now salt none =
      .error (.notFound "User registration failed.") ∧
    ∀ assignedId result,
      user_register_core db user now salt assignedId = .ok result →
      assignedId.isSome = true := by
  constructor
  · simp [user_register_core, hu, hm]
  · intro assignedId result h
    cases assignedId with
    | some j => rfl
    | none => simp [user_register_core, hu, hm] at h

/-- C10 witness: the empty store instantiating the theorem. -/
theorem register_fails_without_assigned_id_witness :
    user_register_core [] ⟨"bob", "b@x.com", "pw"⟩ 0 7 none =
      .error (.notFound "User registration failed.") ∧
    ∀ assignedId result,
      user_register_core [] ⟨"bob", "b@x.com", "pw"⟩ 0 7 assignedId = .ok result →
      assignedId.isSome = true :=
  register_fails_without_assigned_id [] ⟨"bob", "b@x.com", "pw"⟩ 0 7 rfl rfl

end UsersRouter
